import Mathlib

/-!
Shallow embedding of the numerically relevant code of the PyTorch tutorial
notebooks (linear regression from scratch, LSTM classification, GAN helpers),
with machine floats modelled exactly over `ℚ` and tensors as nested lists.
Each definition is translated from the corresponding notebook cell; a few
definitions model framework behaviour that is documented by the spec and by
the recorded notebook outputs (marked `Modelled from the spec:`).
-/

/- ### Tensors over ℚ -/

/-- A rank-1 tensor: a list of rational entries. -/
abbrev Tensor1 := List ℚ

/-- A rank-2 tensor: a list of rows. -/
abbrev Tensor2 := List (List ℚ)

/-- Total number of scalar elements of a rank-2 tensor (`Tensor.numel`). -/
def numel (t : Tensor2) : ℕ := (t.map List.length).sum

/-- Elementwise difference of two rank-2 tensors (`t1 - t2`). -/
def msub (t1 t2 : Tensor2) : Tensor2 :=
  List.zipWith (List.zipWith (· - ·)) t1 t2

/-- Sum of the squares of all elements (`torch.sum(diff * diff)`). -/
def sumSq (t : Tensor2) : ℚ :=
  (t.map (fun r => (r.map (fun x => x * x)).sum)).sum

/-- The notebook's loss, from cell-18 of `L2 Linear Regression.ipynb`:
`diff = t1 - t2; return torch.sum(diff * diff) / diff.numel()`. -/
def mse (t1 t2 : Tensor2) : ℚ :=
  sumSq (msub t1 t2) / (numel (msub t1 t2) : ℚ)

/-- Reference definition of mean squared error, stated from the claim's words:
the sum of the squared elementwise differences divided by the number of
elements of the tensors. -/
def refMSE (t1 t2 : Tensor2) : ℚ :=
  (List.zipWith (fun r1 r2 =>
    (List.zipWith (fun a b => (a - b) * (a - b)) r1 r2).sum) t1 t2).sum
    / (numel t1 : ℚ)

/-- Two rank-2 tensors have the same shape when their row lengths agree. -/
def sameShape (t1 t2 : Tensor2) : Prop :=
  t1.map List.length = t2.map List.length

instance (t1 t2 : Tensor2) : Decidable (sameShape t1 t2) :=
  inferInstanceAs (Decidable (_ = _))

/- ### From-scratch linear regression (L2 Linear Regression.ipynb) -/

/-- Entry `t[i][j]` of a rank-2 tensor, with default `0` out of bounds. -/
def ent2 (t : Tensor2) (i j : ℕ) : ℚ := (t.getD i []).getD j 0

/-- Entry `t[i]` of a rank-1 tensor, with default `0` out of bounds. -/
def ent1 (t : Tensor1) (i : ℕ) : ℚ := t.getD i 0

/-- The parameters of the from-scratch model together with their gradient
buffers (`w`, `b`, `w.grad`, `b.grad`). -/
structure LinParams where
  w : Tensor2
  b : Tensor1
  wgrad : Tensor2
  bgrad : Tensor1

/-- The gradient-descent update block of cell-36 and of the loop body of
cell-43: inside `torch.no_grad()`, `w -= w.grad * 1e-5`,
`b -= b.grad * 1e-5`, then `w.grad.zero_()` and `b.grad.zero_()`. -/
def gdUpdate (s : LinParams) : LinParams where
  w := List.zipWith (List.zipWith (fun x g => x - g * (1 / 100000))) s.w s.wgrad
  b := List.zipWith (fun x g => x - g * (1 / 100000)) s.b s.bgrad
  wgrad := s.wgrad.map (List.map (fun _ => 0))
  bgrad := s.bgrad.map (fun _ => 0)

/-- Dot product of two rank-1 tensors. -/
def dot (u v : Tensor1) : ℚ := (List.zipWith (· * ·) u v).sum

/-- The from-scratch model of cell-11: `x @ w.t() + b`, one output row per
input row. -/
def modelFwd (w : Tensor2) (b : Tensor1) (x : Tensor2) : Tensor2 :=
  x.map (fun xi => List.zipWith (fun wj bj => dot xi wj + bj) w b)

/-- Outer product of two rank-1 tensors. -/
def outerProd (u v : Tensor1) : Tensor2 :=
  u.map (fun a => v.map (fun c => a * c))

/-- Elementwise sum of two rank-2 tensors. -/
def matAdd (A B : Tensor2) : Tensor2 := List.zipWith (List.zipWith (· + ·)) A B

/-- Elementwise sum of two rank-1 tensors. -/
def vecAdd (u v : Tensor1) : Tensor1 := List.zipWith (· + ·) u v

/-- Scalar multiple of a rank-2 tensor. -/
def scale2 (c : ℚ) (A : Tensor2) : Tensor2 := A.map (List.map (fun x => c * x))

/-- Scalar multiple of a rank-1 tensor. -/
def scale1 (c : ℚ) (u : Tensor1) : Tensor1 := u.map (fun x => c * x)

/-- Zero tensor of the same shape as `t`. -/
def zeroLike2 (t : Tensor2) : Tensor2 := t.map (List.map (fun _ => 0))

/-- Zero tensor of the same length as `t`. -/
def zeroLike1 (t : Tensor1) : Tensor1 := t.map (fun _ => 0)

/-- Gradient of `mse (modelFwd w b x) y` with respect to `w`, the quantity
autograd writes into `w.grad` on `loss.backward()`: entry `(j, k)` is
`(2 / n) * Σ_i diff[i][j] * x[i][k]`, with `diff` the prediction error and
`n` its element count. -/
def mseGradW (x diff : Tensor2) (n : ℚ) (w : Tensor2) : Tensor2 :=
  scale2 (2 / n) ((List.zipWith outerProd diff x).foldr matAdd (zeroLike2 w))

/-- Gradient of the loss with respect to `b`: entry `j` is
`(2 / n) * Σ_i diff[i][j]`. -/
def mseGradB (diff : Tensor2) (n : ℚ) (b : Tensor1) : Tensor1 :=
  scale1 (2 / n) (diff.foldr vecAdd (zeroLike1 b))

/-- The whole program state the from-scratch training loop can reach: the
parameters, their gradient buffers, and the dataset tensors. -/
structure TrainState where
  w : Tensor2
  b : Tensor1
  wgrad : Tensor2
  bgrad : Tensor1
  inputs : Tensor2
  targets : Tensor2

/-- One iteration of the 300-epoch training loop (cell-43): forward pass,
mse loss, `loss.backward()` (gradients accumulate into the `.grad` buffers),
in-place update of `w` and `b` with learning rate `1e-5`, then zeroing of
both gradient buffers. -/
def trainEpochStep (s : TrainState) : TrainState :=
  let preds := modelFwd s.w s.b s.inputs
  let diff := msub preds s.targets
  let n : ℚ := (numel diff : ℚ)
  let wg := matAdd s.wgrad (mseGradW s.inputs diff n s.w)
  let bg := vecAdd s.bgrad (mseGradB diff n s.b)
  { w := List.zipWith (List.zipWith (fun x g => x - g * (1 / 100000))) s.w wg
    b := List.zipWith (fun x g => x - g * (1 / 100000)) s.b bg
    wgrad := zeroLike2 wg
    bgrad := zeroLike1 bg
    inputs := s.inputs
    targets := s.targets }

/- ### GAN helpers (L7 Generative Adversarial Nets checkpoint) -/

/-- The clamp operation `Tensor.clamp(lo, hi)` on one element. -/
def clampQ (x lo hi : ℚ) : ℚ := max lo (min x hi)

/-- The GAN helper `denorm`: `out = (x + 1) / 2; return out.clamp(0, 1)`,
elementwise over the tensor. -/
def denorm (x : Tensor1) : Tensor1 :=
  x.map (fun v => clampQ ((v + 1) / 2) 0 1)

/-- The dataset transform `Normalize(mean=(0.5,), std=(0.5,))`:
`p ↦ (p - 0.5) / 0.5`, elementwise. -/
def normalizeHalf (x : Tensor1) : Tensor1 :=
  x.map (fun p => (p - 1 / 2) / (1 / 2))

/- ### Training-iteration operation traces -/

/-- The operations occurring in one training-loop iteration: batch
acquisition, gradient clearing, a forward pass, a loss computation, a
`backward` call, an optimizer `step`, and the from-scratch loop's manual
in-place parameter update. -/
inductive TrainOp where
  | getBatch
  | zeroGrad
  | fwd
  | lossCalc
  | backProp
  | optStep
  | manualUpd
  deriving DecidableEq, Repr

/-- Position of the first occurrence of `o` in trace `t`. -/
def opIdx (t : List TrainOp) (o : TrainOp) : ℕ := t.findIdx (· == o)

/-- Program-order trace of one iteration of the LSTM training loop
(part_000, Step 7): batch from `train_loader`, `optimizer.zero_grad()`,
`model(images)`, `criterion(outputs, labels)`, `loss.backward()`,
`optimizer.step()`. -/
def lstmIterTrace : List TrainOp :=
  [.getBatch, .zeroGrad, .fwd, .lossCalc, .backProp, .optStep]

/-- Program-order trace of one iteration of `fit` in
`L2 Linear Regression.ipynb` (cell-80): batch from `train_dl`, `model(xb)`,
`loss_fn(pred, yb)`, `loss.backward()`, `opt.step()`, `opt.zero_grad()`. -/
def fitIterTrace : List TrainOp :=
  [.getBatch, .fwd, .lossCalc, .backProp, .optStep, .zeroGrad]

/-- Program-order trace of one iteration of each training loop of the
Lecture6 CNN checkpoint notebook: batch from `train_loader`,
`optimizer.zero_grad()`, `model(images)`, `criterion(outputs, labels)`,
`loss.backward()`, `optimizer.step()` — the same shape as the LSTM loops. -/
def cnnIterTrace : List TrainOp :=
  [.getBatch, .zeroGrad, .fwd, .lossCalc, .backProp, .optStep]

/-- Program-order trace of one iteration of the from-scratch 300-epoch loop
of `L2 Linear Regression.ipynb` (cell-43): `preds = model(inputs)`,
`loss = mse(preds, targets)`, `loss.backward()`, then inside
`torch.no_grad()` the manual updates `w -= w.grad * 1e-5`,
`b -= b.grad * 1e-5`, and finally `w.grad.zero_(); b.grad.zero_()`. The loop
acquires no batch (it trains on the full dataset) and calls no optimizer. -/
def scratchIterTrace : List TrainOp :=
  [.fwd, .lossCalc, .backProp, .manualUpd, .zeroGrad]

/-- Program-order trace of one iteration of the GAN training loop (L7
checkpoint): batch from `data_loader`; `train_discriminator`: `D(images)`,
`criterion` on real, `G(z)`, `D(fake_images)`, `criterion` on fake,
`reset_grad()`, `d_loss.backward()`, `d_optimizer.step()`; then
`train_generator`: `G(z)`, `D(fake_images)`, `criterion`, `reset_grad()`,
`g_loss.backward()`, `g_optimizer.step()`. The gradient clearing sits
between the loss computation and `backward`. -/
def ganIterTrace : List TrainOp :=
  [.getBatch, .fwd, .lossCalc, .fwd, .fwd, .lossCalc,
    .zeroGrad, .backProp, .optStep,
    .fwd, .fwd, .lossCalc, .zeroGrad, .backProp, .optStep]

/-- The per-iteration operation order asserted by the claim: obtain a batch,
clear the gradients, forward pass, loss, backward, optimizer step. -/
def claimedIterOrder : List TrainOp :=
  [.getBatch, .zeroGrad, .fwd, .lossCalc, .backProp, .optStep]

/-- Order properties shared by every training iteration in the notebooks: a
forward pass, a loss computation, a `backward`, a gradient clearing, and a
parameter update (an optimizer step or the manual in-place update) all
occur; when a batch is acquired it is acquired first; and the first forward
pass precedes the first loss computation, which precedes the first
`backward`, which precedes the first parameter update. -/
def coreOrdered (t : List TrainOp) : Prop :=
  TrainOp.fwd ∈ t ∧ TrainOp.lossCalc ∈ t ∧ TrainOp.backProp ∈ t ∧
    TrainOp.zeroGrad ∈ t ∧
    (TrainOp.optStep ∈ t ∨ TrainOp.manualUpd ∈ t) ∧
    (TrainOp.getBatch ∈ t → opIdx t .getBatch = 0) ∧
    opIdx t .fwd < opIdx t .lossCalc ∧
    opIdx t .lossCalc < opIdx t .backProp ∧
    opIdx t .backProp < min (opIdx t .optStep) (opIdx t .manualUpd)

instance (t : List TrainOp) : Decidable (coreOrdered t) := by
  unfold coreOrdered
  infer_instance

/- ### Exception propagation in the training loops -/

/-- Failure modes the external framework can raise during an iteration. -/
inductive FrameworkError where
  | shapeMismatch
  | missingFile
  | deviceUnavailable
  deriving DecidableEq, Repr

/-- One iteration of a notebook training loop with every framework call
modelled as fallible, sequenced exactly as the Python code sequences them —
`zero_grad`, forward, loss, `backward`, `step` — with no try/except around
any call: an error in any call aborts the body at that point. -/
def iterBody {σ β ε : Type} (zg : σ → Except ε σ) (fw : σ → β → Except ε σ)
    (ls : σ → Except ε σ) (bw : σ → Except ε σ) (st : σ → Except ε σ)
    (s : σ) (b : β) : Except ε σ :=
  match zg s with
  | .error e => .error e
  | .ok s1 =>
    match fw s1 b with
    | .error e => .error e
    | .ok s2 =>
      match ls s2 with
      | .error e => .error e
      | .ok s3 =>
        match bw s3 with
        | .error e => .error e
        | .ok s4 => st s4

/-- The training loop over a list of batches: iterations run in order, and
an uncaught error in an iteration terminates the whole loop with that
error. -/
def trainLoopRun {σ β ε : Type} (zg : σ → Except ε σ) (fw : σ → β → Except ε σ)
    (ls : σ → Except ε σ) (bw : σ → Except ε σ) (st : σ → Except ε σ) :
    List β → σ → Except ε σ
  | [], s => .ok s
  | b :: bs, s =>
    match iterBody zg fw ls bw st s b with
    | .error e => .error e
    | .ok s' => trainLoopRun zg fw ls bw st bs s'

/-- A framework call that succeeds, for concrete instantiations. -/
def okCall (s : ℕ) : Except FrameworkError ℕ := .ok (s + 1)

/-- A forward call that succeeds, for concrete instantiations. -/
def okForward (s b : ℕ) : Except FrameworkError ℕ := .ok (s + b)

/-- A forward call that raises a shape mismatch, for concrete
instantiations. -/
def badForward (_s _b : ℕ) : Except FrameworkError ℕ := .error .shapeMismatch

/- ### Device placement in the GPU LSTM variant -/

/-- A tensor tagged with its data location. -/
structure DTensor (α : Type) where
  data : α
  onGPU : Bool

/-- The move `.cuda()`: a data-location change only. -/
def cudaT {α : Type} (t : DTensor α) : DTensor α := { t with onGPU := true }

/-- The framework operations `LSTMModel.forward` delegates to: the batch
size `x.size(0)`, zero-tensor construction of a given 3-d shape, the LSTM
run `self.lstm(x, (h0, c0))` returning `out`, the last-time-step slice
`out[:, -1, :]`, and the readout `self.fn`. They live in the external
framework; the claim is an equivalence of the two branch bodies, which holds
for every choice of these operations, so they are quantified over. -/
structure LSTMOps (α : Type) where
  batchOf : α → ℕ
  zerosD : ℕ → ℕ → ℕ → α
  lstmRun : α → α → α → α
  lastStep : α → α
  readout : α → α

/-- The hyperparameters stored by `LSTMModel.__init__`. -/
structure LSTMCfg where
  input_dim : ℕ
  hidden_dim : ℕ
  layer_dim : ℕ
  output_dim : ℕ

/-- The CPU-only `LSTMModel.forward` (part_000, Step 3): `h0` and `c0` are
zero tensors of shape `(layer_dim, x.size(0), hidden_dim)`, the LSTM runs on
`(x, (h0, c0))`, and the readout is applied to the last time step's hidden
state. -/
def forwardCPU {α : Type} (P : LSTMOps α) (cfg : LSTMCfg) (x : DTensor α) :
    DTensor α :=
  let h0 : DTensor α :=
    ⟨P.zerosD cfg.layer_dim (P.batchOf x.data) cfg.hidden_dim, false⟩
  let c0 : DTensor α :=
    ⟨P.zerosD cfg.layer_dim (P.batchOf x.data) cfg.hidden_dim, false⟩
  ⟨P.readout (P.lastStep (P.lstmRun x.data h0.data c0.data)), x.onGPU⟩

/-- The GPU variant of `LSTMModel.forward`: when `torch.cuda.is_available()`
the same zero tensors are built and moved with `.cuda()`; otherwise the CPU
branch is taken verbatim; the rest of the body is shared. -/
def forwardGPU {α : Type} (P : LSTMOps α) (cfg : LSTMCfg)
    (cudaAvailable : Bool) (x : DTensor α) : DTensor α :=
  let h0 : DTensor α :=
    if cudaAvailable then
      cudaT ⟨P.zerosD cfg.layer_dim (P.batchOf x.data) cfg.hidden_dim, false⟩
    else ⟨P.zerosD cfg.layer_dim (P.batchOf x.data) cfg.hidden_dim, false⟩
  let c0 : DTensor α :=
    if cudaAvailable then
      cudaT ⟨P.zerosD cfg.layer_dim (P.batchOf x.data) cfg.hidden_dim, false⟩
    else ⟨P.zerosD cfg.layer_dim (P.batchOf x.data) cfg.hidden_dim, false⟩
  ⟨P.readout (P.lastStep (P.lstmRun x.data h0.data c0.data)), x.onGPU⟩

/- ### The MNIST dataset and the LSTM notebook's loop arithmetic -/

/-- Modelled from the spec: one example of the handwritten-digit dataset, "a
fixed collection of 28×28 grayscale pixel grids with integer class labels
0–9". The 28×28 grid is enforced by the type of `pixels` and the label range
by `label_le`. -/
structure MNISTExample where
  pixels : Fin 28 → Fin 28 → ℚ
  label : ℕ
  label_le : label ≤ 9

/-- An all-black digit with label 0. -/
def blankDigit : MNISTExample :=
  ⟨fun _ _ => 0, 0, by decide⟩

/-- Modelled from the spec: the number of examples in each split of the
handwritten-digit dataset, per the spec and the notebook's recorded size
prints — 60,000 training and 10,000 test examples. -/
def mnistSize (train : Bool) : ℕ := if train then 60000 else 10000

/-- Modelled from the spec: `dsets.MNIST(root, train, ...)` — the loader
lives in the external torchvision package, not in this repository. Per the
spec and the notebook's recorded size prints, the train split has 60,000
examples and the test split 10,000. Pixel contents are irrelevant to the
claims and are not modelled. -/
def mnistLoad (train : Bool) : List MNISTExample :=
  List.replicate (mnistSize train) blankDigit

/-- The framework operations one LSTM training iteration delegates to, over
abstract parameter data `P` and gradient-buffer data `G`:
`optimizer.zero_grad()`, the gradient accumulation `loss.backward()`
performs given the parameters and the batch (the forward pass and
`criterion` are pure reads folded into it), and the in-place parameter
update `optimizer.step()`. They live in the external framework and are
quantified over. -/
structure LSTMStepOps (P G : Type) where
  zeroG : G → G
  gradOf : P → G → List MNISTExample → G
  stepUpd : P → G → P

/-- The program state the LSTM training loop can reach: the model's
parameter arrays, their gradient buffers, and the loaded image/label data of
the two dataset splits. -/
structure LSTMTrainState (P G : Type) where
  params : P
  grads : G
  trainData : List MNISTExample
  testData : List MNISTExample

/-- One iteration of the LSTM training loop (part_000, Step 7) on a batch
drawn from the loader: `optimizer.zero_grad()`, forward pass and loss (pure
reads), `loss.backward()` writing the gradient buffers, and
`optimizer.step()` writing the parameters in place. Only `params` and
`grads` are written; the loaded dataset is read at most. -/
def lstmTrainStep {P G : Type} (ops : LSTMStepOps P G)
    (batch : List MNISTExample) (s : LSTMTrainState P G) :
    LSTMTrainState P G :=
  let g1 := ops.zeroG s.grads
  let g2 := ops.gradOf s.params g1 batch
  { params := ops.stepUpd s.params g2
    grads := g2
    trainData := s.trainData
    testData := s.testData }

/-- Modelled from the spec: the parameter tensors `nn.LSTM(input_dim,
hidden_dim, layer_dim)` registers for one layer — an input-to-gates weight,
a hidden-to-gates weight, and two bias vectors, each stacking the four
gates — as the framework layer constructor dictates and the notebook's
recorded `size()` prints confirm. A shape is its list of dimensions. -/
def lstmLayerShapes (input_dim hidden_dim : ℕ) (layer : ℕ) : List (List ℕ) :=
  if layer = 0 then
    [[4 * hidden_dim, input_dim], [4 * hidden_dim, hidden_dim],
      [4 * hidden_dim], [4 * hidden_dim]]
  else
    [[4 * hidden_dim, hidden_dim], [4 * hidden_dim, hidden_dim],
      [4 * hidden_dim], [4 * hidden_dim]]

/-- All parameter shapes of `nn.LSTM(input_dim, hidden_dim, layer_dim)`,
layer by layer. -/
def lstmParamShapes (input_dim hidden_dim layer_dim : ℕ) : List (List ℕ) :=
  (List.range layer_dim).flatMap (lstmLayerShapes input_dim hidden_dim)

/-- Parameter shapes of `LSTMModel(input_dim, hidden_dim, layer_dim,
output_dim)`: the LSTM parameters followed by the readout
`nn.Linear(hidden_dim, output_dim)` weight and bias. -/
def lstmModelParamShapes (input_dim hidden_dim layer_dim output_dim : ℕ) :
    List (List ℕ) :=
  lstmParamShapes input_dim hidden_dim layer_dim
    ++ [[output_dim, hidden_dim], [output_dim]]

/-- Python's `int()` truncation toward zero, on an exact rational. -/
def pyInt (q : ℚ) : ℤ := if 0 ≤ q then ⌊q⌋ else ⌈q⌉

/-- The quantity `num_epochs = int(n_iters / (len(train_dataset) / batch_size))` with
`batch_size = 100` and `n_iters = 3000` (part_000, Step 2); Python's `/` is
exact here, and `len(train_dataset)` is the training-split size. -/
def numEpochsLSTM : ℤ :=
  pyInt ((3000 : ℚ) / ((mnistSize true : ℚ) / (100 : ℚ)))

/-- Number of batches `DataLoader(train_dataset, batch_size=100)` yields per
epoch (default `drop_last=False`, so the ceiling of size / batch size). -/
def numBatchesLSTM : ℕ := (mnistSize true + 100 - 1) / 100

/-- Total number of iterations the LSTM training loop executes. -/
def totalItersLSTM : ℕ := numEpochsLSTM.toNat * numBatchesLSTM

/-- The values the counter `iter` takes when the evaluation branch guarded
by `iter % 500 == 0` fires. -/
def evalItersLSTM : List ℕ :=
  ((List.range totalItersLSTM).map (· + 1)).filter (fun i => i % 500 == 0)

/- ### Helper lemmas on lists of rationals -/

theorem rowSq_comm (r1 r2 : List ℚ) :
    ((List.zipWith (· - ·) r1 r2).map (fun x => x * x)).sum
      = ((List.zipWith (· - ·) r2 r1).map (fun x => x * x)).sum := by
  induction r1 generalizing r2 with
  | nil => cases r2 <;> simp
  | cons a r1 ih =>
    cases r2 with
    | nil => simp
    | cons b r2 => simp [ih r2]; ring

theorem rowSq_nonneg (r : List ℚ) : 0 ≤ (r.map (fun x => x * x)).sum := by
  induction r with
  | nil => simp
  | cons a r ih => simpa using add_nonneg (mul_self_nonneg a) ih

theorem rowSq_eq_zero (r1 r2 : List ℚ) (h : r1.length = r2.length) :
    ((List.zipWith (· - ·) r1 r2).map (fun x => x * x)).sum = 0 ↔ r1 = r2 := by
  induction r1 generalizing r2 with
  | nil =>
    cases r2 with
    | nil => simp
    | cons b r2 => simp at h
  | cons a r1 ih =>
    cases r2 with
    | nil => simp at h
    | cons b r2 =>
      simp only [List.length_cons, Nat.succ.injEq] at h
      have hrec := ih r2 h
      constructor
      · intro h0
        simp only [List.zipWith_cons_cons, List.map_cons, List.sum_cons] at h0
        have h1 := (add_eq_zero_iff_of_nonneg (mul_self_nonneg (a - b))
          (rowSq_nonneg _)).mp h0
        have ha : a = b := by
          have := mul_self_eq_zero.mp h1.1
          linarith
        have hr : r1 = r2 := hrec.mp h1.2
        simp [ha, hr]
      · intro he
        injection he with h1 h2
        subst h1; subst h2
        simp only [List.zipWith_cons_cons, List.map_cons, List.sum_cons]
        rw [hrec.mpr rfl]
        ring

theorem sumSq_msub_comm (t1 t2 : Tensor2) :
    sumSq (msub t1 t2) = sumSq (msub t2 t1) := by
  induction t1 generalizing t2 with
  | nil => cases t2 <;> simp [sumSq, msub]
  | cons r1 t1 ih =>
    cases t2 with
    | nil => simp [sumSq, msub]
    | cons r2 t2 =>
      simp only [msub, List.zipWith_cons_cons, sumSq, List.map_cons,
        List.sum_cons] at *
      rw [rowSq_comm r1 r2, ih t2]

theorem numel_msub_comm (t1 t2 : Tensor2) :
    numel (msub t1 t2) = numel (msub t2 t1) := by
  induction t1 generalizing t2 with
  | nil => cases t2 <;> simp [numel, msub]
  | cons r1 t1 ih =>
    cases t2 with
    | nil => simp [numel, msub]
    | cons r2 t2 =>
      simp only [msub, List.zipWith_cons_cons, numel, List.map_cons,
        List.sum_cons, List.length_zipWith] at *
      rw [Nat.min_comm, ih t2]

theorem sumSq_msub_nonneg (t1 t2 : Tensor2) : 0 ≤ sumSq (msub t1 t2) := by
  induction t1 generalizing t2 with
  | nil => cases t2 <;> simp [sumSq, msub]
  | cons r1 t1 ih =>
    cases t2 with
    | nil => simp [sumSq, msub]
    | cons r2 t2 =>
      simp only [msub, List.zipWith_cons_cons, sumSq, List.map_cons,
        List.sum_cons]
      exact add_nonneg (rowSq_nonneg _) (ih t2)

theorem numel_msub_of_sameShape (t1 t2 : Tensor2) (h : sameShape t1 t2) :
    numel (msub t1 t2) = numel t1 := by
  induction t1 generalizing t2 with
  | nil => simp [numel, msub]
  | cons r1 t1 ih =>
    cases t2 with
    | nil => simp [sameShape] at h
    | cons r2 t2 =>
      simp only [sameShape, List.map_cons, List.cons.injEq] at h
      simp only [msub, List.zipWith_cons_cons, numel, List.map_cons,
        List.sum_cons, List.length_zipWith]
      have := ih t2 h.2
      simp only [numel, msub] at this
      rw [h.1, Nat.min_self, this]

theorem sumSq_msub_eq_zero (t1 t2 : Tensor2) (h : sameShape t1 t2) :
    sumSq (msub t1 t2) = 0 ↔ t1 = t2 := by
  induction t1 generalizing t2 with
  | nil =>
    cases t2 with
    | nil => simp [sumSq, msub]
    | cons r2 t2 => simp [sameShape] at h
  | cons r1 t1 ih =>
    cases t2 with
    | nil => simp [sameShape] at h
    | cons r2 t2 =>
      simp only [sameShape, List.map_cons, List.cons.injEq] at h
      simp only [msub, List.zipWith_cons_cons, sumSq, List.map_cons,
        List.sum_cons]
      have hrest : sumSq (msub t1 t2)
          = ((msub t1 t2).map (fun r => (r.map (fun x => x * x)).sum)).sum := rfl
      constructor
      · intro h0
        have h1 := (add_eq_zero_iff_of_nonneg (rowSq_nonneg _)
          (hrest ▸ sumSq_msub_nonneg t1 t2)).mp h0
        have hr : r1 = r2 := (rowSq_eq_zero r1 r2 h.1).mp h1.1
        have ht : t1 = t2 := (ih t2 h.2).mp (hrest ▸ h1.2)
        simp [hr, ht]
      · intro he
        injection he with h1 h2
        subst h1; subst h2
        rw [(rowSq_eq_zero r1 r1 rfl).mpr rfl]
        have ht0 : sumSq (msub t1 t1) = 0 :=
          (ih t1 (by simp [sameShape])).mpr rfl
        simp only [sumSq, msub] at ht0
        rw [ht0]
        simp

theorem sumSq_msub_eq (t1 t2 : Tensor2) :
    sumSq (msub t1 t2)
      = (List.zipWith (fun r1 r2 =>
          (List.zipWith (fun a b => (a - b) * (a - b)) r1 r2).sum) t1 t2).sum := by
  simp [sumSq, msub, List.map_zipWith]

theorem getD_zipWith {α β γ : Type} (f : α → β → γ) (l1 : List α)
    (l2 : List β) (i : ℕ) (h1 : i < l1.length) (h2 : i < l2.length)
    (d : γ) (d1 : α) (d2 : β) :
    (List.zipWith f l1 l2).getD i d = f (l1.getD i d1) (l2.getD i d2) := by
  induction l1 generalizing l2 i with
  | nil => simp at h1
  | cons a l1 ih =>
    cases l2 with
    | nil => simp at h2
    | cons b l2 =>
      cases i with
      | zero => simp
      | succ n =>
        simp only [List.zipWith_cons_cons, List.getD_cons_succ]
        exact ih l2 n (by simpa using h1) (by simpa using h2)

theorem getD_map {α β : Type} (f : α → β) (l : List α) (i : ℕ)
    (h : i < l.length) (d : β) (d' : α) :
    (l.map f).getD i d = f (l.getD i d') := by
  induction l generalizing i with
  | nil => simp at h
  | cons a l ih =>
    cases i with
    | zero => simp
    | succ n =>
      simp only [List.map_cons, List.getD_cons_succ]
      exact ih n (by simpa using h)

/- ### Claim theorems -/

/-- C1: in the from-scratch linear-regression training loop, the
gradient-descent update block sets every weight entry to the old entry minus
`1e-5` times the matching entry of `w.grad`, every bias entry to the old
entry minus `1e-5` times the matching entry of `b.grad`, and immediately
afterwards both gradient buffers are exactly zero. -/
theorem gdUpdate_correct (s : LinParams) (i j : ℕ)
    (hiw : i < s.w.length) (hig : i < s.wgrad.length)
    (hjw : j < (s.w.getD i []).length) (hjg : j < (s.wgrad.getD i []).length)
    (hib : i < s.b.length) (hibg : i < s.bgrad.length) :
    ent2 (gdUpdate s).w i j
        = ent2 s.w i j - 1 / 100000 * ent2 s.wgrad i j ∧
      ent1 (gdUpdate s).b i = ent1 s.b i - 1 / 100000 * ent1 s.bgrad i ∧
      ent2 (gdUpdate s).wgrad i j = 0 ∧
      ent1 (gdUpdate s).bgrad i = 0 := by
  refine ⟨?_, ?_, ?_, ?_⟩
  · show ((List.zipWith _ s.w s.wgrad).getD i []).getD j 0 = _
    rw [getD_zipWith _ s.w s.wgrad i hiw hig [] [] []]
    rw [getD_zipWith _ _ _ j hjw hjg 0 0 0]
    unfold ent2
    ring
  · show (List.zipWith _ s.b s.bgrad).getD i 0 = _
    rw [getD_zipWith _ s.b s.bgrad i hib hibg 0 0 0]
    unfold ent1
    ring
  · show ((s.wgrad.map _).getD i []).getD j 0 = 0
    rw [getD_map _ s.wgrad i hig [] []]
    rw [getD_map _ _ j hjg 0 0]
  · show (s.bgrad.map _).getD i 0 = 0
    rw [getD_map _ s.bgrad i hibg 0 0]

/-- A concrete parameter/gradient state for evaluating `gdUpdate`. -/
def linW : LinParams :=
  { w := [[1, 2], [3, 4]], b := [5, 6],
    wgrad := [[10, 20], [30, 40]], bgrad := [50, 60] }

/-- Witness for C1 at a concrete state and index. -/
theorem gdUpdate_correct_witness :
    (0 < linW.w.length ∧ 0 < linW.wgrad.length ∧
      1 < (linW.w.getD 0 []).length ∧ 1 < (linW.wgrad.getD 0 []).length ∧
      0 < linW.b.length ∧ 0 < linW.bgrad.length) ∧
    (ent2 (gdUpdate linW).w 0 1
        = ent2 linW.w 0 1 - 1 / 100000 * ent2 linW.wgrad 0 1 ∧
      ent1 (gdUpdate linW).b 0
        = ent1 linW.b 0 - 1 / 100000 * ent1 linW.bgrad 0 ∧
      ent2 (gdUpdate linW).wgrad 0 1 = 0 ∧
      ent1 (gdUpdate linW).bgrad 0 = 0) :=
  ⟨⟨by decide, by decide, by decide, by decide, by decide, by decide⟩,
    gdUpdate_correct linW 0 1 (by decide) (by decide) (by decide) (by decide)
      (by decide) (by decide)⟩

/-- C5: one training step (forward pass, loss, backward, parameter update)
writes only the model's parameters and their gradient buffers. For the
from-scratch loop the dataset tensors `inputs` and `targets` are unchanged,
and for the LSTM loop — for every choice of the framework's zero-grad,
backward, and step operations and every batch — the loaded image/label data
of both splits is unchanged; neither state has any other component. -/
theorem trainEpochStep_frame {P G : Type} (ops : LSTMStepOps P G)
    (batch : List MNISTExample) (ls : LSTMTrainState P G) (s : TrainState) :
    ((trainEpochStep s).inputs = s.inputs ∧
      (trainEpochStep s).targets = s.targets) ∧
      ((lstmTrainStep ops batch ls).trainData = ls.trainData ∧
        (lstmTrainStep ops batch ls).testData = ls.testData) :=
  ⟨⟨rfl, rfl⟩, rfl, rfl⟩

/-- C8: the notebook's `mse` equals the reference mean-squared-error
definition on same-shaped tensors, is symmetric, nonnegative, and vanishes
exactly on equal tensors. -/
theorem mse_correct (t1 t2 : Tensor2) (hs : sameShape t1 t2)
    (hne : 0 < numel t1) :
    mse t1 t2 = refMSE t1 t2 ∧ mse t1 t2 = mse t2 t1 ∧ 0 ≤ mse t1 t2 ∧
      (mse t1 t2 = 0 ↔ t1 = t2) := by
  have hnum := numel_msub_of_sameShape t1 t2 hs
  refine ⟨?_, ?_, ?_, ?_⟩
  · unfold mse refMSE
    rw [hnum, sumSq_msub_eq]
  · unfold mse
    rw [sumSq_msub_comm, numel_msub_comm]
  · exact div_nonneg (sumSq_msub_nonneg t1 t2) (Nat.cast_nonneg _)
  · unfold mse
    rw [hnum]
    have hpos : (0 : ℚ) < (numel t1 : ℚ) := by exact_mod_cast hne
    rw [div_eq_zero_iff]
    constructor
    · rintro (h0 | h0)
      · exact (sumSq_msub_eq_zero t1 t2 hs).mp h0
      · exact absurd h0 hpos.ne'
    · intro he
      exact Or.inl ((sumSq_msub_eq_zero t1 t2 hs).mpr he)

/-- A concrete left operand for evaluating `mse`. -/
def mseW1 : Tensor2 := [[1, 2], [3]]

/-- A concrete right operand for evaluating `mse`. -/
def mseW2 : Tensor2 := [[1, 0], [3]]

/-- Witness for C8 at concrete same-shaped nonempty tensors. -/
theorem mse_correct_witness :
    (sameShape mseW1 mseW2 ∧ 0 < numel mseW1) ∧
      (mse mseW1 mseW2 = refMSE mseW1 mseW2 ∧
        mse mseW1 mseW2 = mse mseW2 mseW1 ∧ 0 ≤ mse mseW1 mseW2 ∧
        (mse mseW1 mseW2 = 0 ↔ mseW1 = mseW2)) :=
  ⟨⟨by decide, by decide⟩, mse_correct mseW1 mseW2 (by decide) (by decide)⟩

/-- C9: `denorm` computes `clamp((x + 1) / 2, 0, 1)` elementwise, every
element of its output lies in `[0, 1]`, and on pixel values in `[0, 1]` it
is a left inverse of the dataset transform `Normalize(0.5, 0.5)`. -/
theorem denorm_correct (x : Tensor1) :
    denorm x = x.map (fun v => max 0 (min ((v + 1) / 2) 1)) ∧
      (∀ y ∈ denorm x, 0 ≤ y ∧ y ≤ 1) ∧
      (∀ p : Tensor1, (∀ v ∈ p, 0 ≤ v ∧ v ≤ 1) →
        denorm (normalizeHalf p) = p) := by
  refine ⟨rfl, ?_, ?_⟩
  · intro y hy
    simp only [denorm, List.mem_map] at hy
    obtain ⟨v, -, hv⟩ := hy
    subst hv
    unfold clampQ
    constructor
    · exact le_max_left 0 _
    · exact max_le (by norm_num) (min_le_right _ _)
  · intro p
    induction p with
    | nil => intro _; rfl
    | cons a p ih =>
      intro hp
      have ha := hp a (List.mem_cons_self a p)
      have hrest := ih (fun v hv => hp v (List.mem_cons_of_mem a hv))
      show (fun v => clampQ ((v + 1) / 2) 0 1) ((a - 1 / 2) / (1 / 2))
          :: denorm (normalizeHalf p) = a :: p
      rw [hrest]
      congr 1
      show clampQ (((a - 1 / 2) / (1 / 2) + 1) / 2) 0 1 = a
      have hval : ((a - 1 / 2) / (1 / 2) + 1) / 2 = a := by ring
      rw [hval]
      unfold clampQ
      rw [min_eq_left ha.2, max_eq_right ha.1]

/-- A concrete input for evaluating `denorm`. -/
def denormW : Tensor1 := [2]

/-- A concrete pixel tensor with values in `[0, 1]`. -/
def pixW : Tensor1 := [0, 1]

/-- Witness for C9: the range bound at a concrete member of `denorm`'s
output, and the left-inverse law at a concrete pixel tensor. -/
theorem denorm_correct_witness :
    ((1 : ℚ) ∈ denorm denormW ∧ 0 ≤ (1 : ℚ) ∧ (1 : ℚ) ≤ 1) ∧
      ((∀ v ∈ pixW, 0 ≤ v ∧ v ≤ 1) ∧ denorm (normalizeHalf pixW) = pixW) := by
  have hd : denorm denormW = [1] := by
    show [clampQ ((2 + 1) / 2) 0 1] = [1]
    rw [show ((2 : ℚ) + 1) / 2 = 3 / 2 by norm_num]
    unfold clampQ
    rw [min_eq_right (by norm_num : (1 : ℚ) ≤ 3 / 2),
      max_eq_right (by norm_num : (0 : ℚ) ≤ 1)]
  have hmem : (1 : ℚ) ∈ denorm denormW := by
    rw [hd]; exact List.mem_singleton.mpr rfl
  have hp : ∀ v ∈ pixW, 0 ≤ v ∧ v ≤ 1 := by
    intro v hv
    simp only [pixW, List.mem_cons, List.not_mem_nil, or_false] at hv
    rcases hv with h | h <;> subst h <;> norm_num
  exact ⟨⟨hmem, (denorm_correct denormW).2.1 1 hmem⟩,
    hp, (denorm_correct denormW).2.2 pixW hp⟩

/-- C2 counterexample: the `fit` training iteration of
`L2 Linear Regression.ipynb` does not follow the claimed fixed order — it
clears the gradients after the optimizer step, not immediately after
obtaining the batch and before the forward pass. -/
theorem fit_not_claimedOrder :
    fitIterTrace ≠ claimedIterOrder ∧
      opIdx fitIterTrace .optStep < opIdx fitIterTrace .zeroGrad := by
  decide

/-- C2 amended: in every training iteration of every notebook loop a
forward pass, a loss computation, a `backward`, a gradient clearing, and a
parameter update all occur, the batch (when one is acquired) is acquired
first, and the first forward pass precedes the first loss, which precedes
the first `backward`, which precedes the first parameter update (so no
iteration calls the update before `backward` or `backward` before the
forward pass); but the seven-step recipe is not uniform: the LSTM and CNN
loops clear gradients before the forward pass as the claim states, the
`fit` loop clears them after the optimizer step, the GAN loop clears them
between the loss computation and `backward`, and the from-scratch 300-epoch
loop acquires no batch and updates the parameters manually in place instead
of calling an optimizer's step. -/
theorem iterTraces_ordered :
    (coreOrdered lstmIterTrace ∧ coreOrdered cnnIterTrace ∧
      coreOrdered fitIterTrace ∧ coreOrdered scratchIterTrace ∧
      coreOrdered ganIterTrace) ∧
      lstmIterTrace = claimedIterOrder ∧ cnnIterTrace = claimedIterOrder ∧
      opIdx lstmIterTrace .zeroGrad < opIdx lstmIterTrace .fwd ∧
      opIdx fitIterTrace .optStep < opIdx fitIterTrace .zeroGrad ∧
      opIdx ganIterTrace .lossCalc < opIdx ganIterTrace .zeroGrad ∧
      opIdx ganIterTrace .zeroGrad < opIdx ganIterTrace .backProp ∧
      TrainOp.getBatch ∉ scratchIterTrace ∧
      TrainOp.optStep ∉ scratchIterTrace ∧
      TrainOp.manualUpd ∈ scratchIterTrace ∧
      opIdx scratchIterTrace .manualUpd < opIdx scratchIterTrace .zeroGrad := by
  decide

/-- C6: no training loop catches or translates an exception — if every
iteration up to some batch succeeds and a framework call in the body fails
there, the error propagates unhandled to the top of the loop: the loop's
result is exactly that error, the remaining batches never run, and no
alternative result is produced. -/
theorem trainLoop_error_propagates {σ β ε : Type} (zg : σ → Except ε σ)
    (fw : σ → β → Except ε σ) (ls bw st : σ → Except ε σ)
    (pre : List β) (b : β) (rest : List β) (s s' : σ) (e : ε)
    (hpre : trainLoopRun zg fw ls bw st pre s = .ok s')
    (herr : iterBody zg fw ls bw st s' b = .error e) :
    trainLoopRun zg fw ls bw st (pre ++ b :: rest) s = .error e := by
  induction pre generalizing s with
  | nil =>
    simp only [trainLoopRun] at hpre
    injection hpre with h
    subst h
    simp only [List.nil_append, trainLoopRun, herr]
  | cons p ps ih =>
    rw [List.cons_append]
    simp only [trainLoopRun] at hpre ⊢
    cases hh : iterBody zg fw ls bw st s p with
    | error e2 => rw [hh] at hpre; cases hpre
    | ok s1 =>
      rw [hh] at hpre
      exact ih s1 hpre

/-- Witness for C6: with a forward call that raises a shape mismatch on the
first batch, the loop over `[7, 8]` terminates with that error. -/
theorem trainLoop_error_propagates_witness :
    trainLoopRun okCall badForward okCall okCall okCall ([] : List ℕ) 0
        = .ok 0 ∧
      iterBody okCall badForward okCall okCall okCall 0 7
        = .error .shapeMismatch ∧
      trainLoopRun okCall badForward okCall okCall okCall ([] ++ 7 :: [8]) 0
        = .error .shapeMismatch :=
  ⟨rfl, rfl,
    trainLoop_error_propagates okCall badForward okCall okCall okCall
      [] 7 [8] 0 0 .shapeMismatch rfl rfl⟩

/-- C7: for every choice of the framework operations and every input batch,
the CUDA branch and the CPU branch of the GPU variant of
`LSTMModel.forward` produce the same data — both initialize `h0` and `c0`
to the zero tensor of shape `(layer_dim, batch_size, hidden_dim)`, run the
LSTM, and apply the readout to the last time step — and agree with the
earlier CPU-only model's forward up to data location. -/
theorem forwardGPU_eq_forwardCPU {α : Type} (P : LSTMOps α) (cfg : LSTMCfg)
    (avail : Bool) (x : DTensor α) :
    (forwardGPU P cfg avail x).data = (forwardCPU P cfg x).data ∧
      (forwardGPU P cfg avail x).data
        = P.readout (P.lastStep (P.lstmRun x.data
            (P.zerosD cfg.layer_dim (P.batchOf x.data) cfg.hidden_dim)
            (P.zerosD cfg.layer_dim (P.batchOf x.data) cfg.hidden_dim))) := by
  cases avail <;> exact ⟨rfl, rfl⟩

theorem mnistTrainLen : (mnistLoad true).length = 60000 := by
  unfold mnistLoad
  rw [List.length_replicate]
  rfl

theorem mnistTestLen : (mnistLoad false).length = 10000 := by
  unfold mnistLoad
  rw [List.length_replicate]
  rfl

theorem blankDigit_mem_train : blankDigit ∈ mnistLoad true := by
  unfold mnistLoad
  rw [List.mem_replicate]
  exact ⟨by decide, rfl⟩

/-- C3: every load of the handwritten-digit dataset yields 60,000 training
examples and 10,000 test examples; each example is a 28×28 grayscale grid
(the type of `MNISTExample.pixels`) whose label lies between 0 and 9. -/
theorem mnist_sizes :
    (mnistLoad true).length = 60000 ∧ (mnistLoad false).length = 10000 ∧
      ∀ (train : Bool) (ex : MNISTExample), ex ∈ mnistLoad train →
        ex.label ≤ 9 :=
  ⟨mnistTrainLen, mnistTestLen, fun _ ex _ => ex.label_le⟩

/-- Witness for C3 at a concrete member of the training split. -/
theorem mnist_sizes_witness :
    blankDigit ∈ mnistLoad true ∧ blankDigit.label ≤ 9 :=
  ⟨blankDigit_mem_train, mnist_sizes.2.2 true blankDigit blankDigit_mem_train⟩

theorem lstmLayerShapes_length (i h l : ℕ) :
    (lstmLayerShapes i h l).length = 4 := by
  unfold lstmLayerShapes
  split <;> rfl

theorem lstmParamShapes_length (i h L : ℕ) :
    (lstmParamShapes i h L).length = 4 * L := by
  unfold lstmParamShapes
  rw [List.length_flatMap]
  have : (List.range L).map (List.length ∘ lstmLayerShapes i h)
      = List.replicate L 4 := by
    rw [List.eq_replicate_iff]
    refine ⟨by simp, ?_⟩
    intro n hn
    simp only [List.mem_map] at hn
    obtain ⟨l, -, hl⟩ := hn
    rw [← hl]
    exact lstmLayerShapes_length i h l
  rw [this, List.sum_replicate, smul_eq_mul, Nat.mul_comm]

/-- C4: the parameter collection of `LSTMModel` is a function of the four
hyperparameters only, with `4 * layer_dim + 2` tensors — per layer an
input-to-gates weight (`[4h, input]` for layer 0, `[4h, h]` deeper), a
hidden-to-gates weight `[4h, h]` and two `[4h]` biases, plus the readout
`[output, hidden]` weight and `[output]` bias — so `layer_dim = 1, 2, 3`
yield 6, 10, 14 tensors. -/
theorem lstmModelParams_correct :
    (∀ i h L o, (lstmModelParamShapes i h L o).length = 4 * L + 2) ∧
      (∀ i h, lstmLayerShapes i h 0
        = [[4 * h, i], [4 * h, h], [4 * h], [4 * h]]) ∧
      (∀ i h l, lstmLayerShapes i h (l + 1)
        = [[4 * h, h], [4 * h, h], [4 * h], [4 * h]]) ∧
      (∀ i h L o, lstmModelParamShapes i h L o
        = lstmParamShapes i h L ++ [[o, h], [o]]) ∧
      lstmModelParamShapes 28 100 1 10
        = [[400, 28], [400, 100], [400], [400], [10, 100], [10]] ∧
      lstmModelParamShapes 28 100 2 10
        = [[400, 28], [400, 100], [400], [400],
            [400, 100], [400, 100], [400], [400], [10, 100], [10]] ∧
      lstmModelParamShapes 28 100 3 10
        = [[400, 28], [400, 100], [400], [400],
            [400, 100], [400, 100], [400], [400],
            [400, 100], [400, 100], [400], [400], [10, 100], [10]] ∧
      (lstmModelParamShapes 28 100 1 10).length = 6 ∧
      (lstmModelParamShapes 28 100 2 10).length = 10 ∧
      (lstmModelParamShapes 28 100 3 10).length = 14 := by
  refine ⟨?_, ?_, ?_, ?_, ?_, ?_, ?_, ?_, ?_, ?_⟩
  · intro i h L o
    unfold lstmModelParamShapes
    rw [List.length_append, lstmParamShapes_length]
    rfl
  · intro i h
    rfl
  · intro i h l
    unfold lstmLayerShapes
    simp
  · intro i h L o
    rfl
  · decide
  · decide
  · decide
  · decide
  · decide
  · decide

theorem mnistLoad_length (train : Bool) :
    (mnistLoad train).length = mnistSize train := by
  unfold mnistLoad
  rw [List.length_replicate]

theorem numEpochsLSTM_eq : numEpochsLSTM = 5 := by
  unfold numEpochsLSTM mnistSize
  have h : ((3000 : ℚ) / (((if true then 60000 else 10000 : ℕ) : ℚ)
      / (100 : ℚ))) = 5 := by norm_num
  rw [h]
  unfold pyInt
  rw [if_pos (by norm_num : (0 : ℚ) ≤ 5)]
  norm_num

theorem numBatchesLSTM_eq : numBatchesLSTM = 600 := rfl

theorem totalItersLSTM_eq : totalItersLSTM = 3000 := by
  show numEpochsLSTM.toNat * numBatchesLSTM = 3000
  rw [numEpochsLSTM_eq, numBatchesLSTM_eq]
  rfl

set_option maxRecDepth 100000 in
theorem evalItersLSTM_eq :
    evalItersLSTM = [500, 1000, 1500, 2000, 2500, 3000] := by
  show ((List.range totalItersLSTM).map (· + 1)).filter
      (fun i => i % 500 == 0) = [500, 1000, 1500, 2000, 2500, 3000]
  rw [totalItersLSTM_eq]
  decide

/-- C10: with `batch_size = 100`, `n_iters = 3000` and a 60,000-example
training split, `num_epochs = int(3000 / (60000 / 100)) = 5`, the LSTM
training loop runs exactly `5 × 600 = 3000` iterations so the counter ends
at `n_iters`, and the branch guarded by `iter % 500 == 0` fires exactly 6
times, the last at iteration 3000. -/
theorem lstm_loop_arith :
    numEpochsLSTM = 5 ∧ numBatchesLSTM = 600 ∧ totalItersLSTM = 3000 ∧
      evalItersLSTM.length = 6 ∧ evalItersLSTM.getLast? = some 3000 := by
  refine ⟨numEpochsLSTM_eq, numBatchesLSTM_eq, totalItersLSTM_eq, ?_, ?_⟩
  · rw [evalItersLSTM_eq]
    rfl
  · rw [evalItersLSTM_eq]
    rfl
